import Mathlib

namespace BluHealth

/-! Shallow embedding of the slot-availability core of the BluHealth-Docs
repository (src/scheduling/4.multi_location_backend_api.js, the route file
src/unnamed/part_001 lines 856-929, and the SQL schema in src/unnamed/part_001).
Times of day are minutes since midnight (Nat); calendar dates are day numbers
(Nat) with day-of-week computed as date % 7 (mirroring moment(date).day() up to
the anchoring of day 0, which no claim depends on); SQL rows are Lean
structures carrying exactly the columns that the scheduling logic reads. -/

/-- Half-open overlap of [aStart, aEnd) and [bStart, bEnd): the intervals share
an instant iff each starts before the other ends (spec section 4.1; this is the
rule used verbatim by the slot/booking test in src/unnamed/part_001 line 911). -/
def overlaps (aStart aEnd bStart bEnd : Nat) : Prop :=
  aStart < bEnd ∧ bStart < aEnd

instance (aStart aEnd bStart bEnd : Nat) : Decidable (overlaps aStart aEnd bStart bEnd) :=
  inferInstanceAs (Decidable (_ ∧ _))

/-- A row of physician_location_schedules (src/unnamed/part_001 lines 122-139).
Columns the scheduling routes never read (max_patients_per_hour,
appointment_types, effective_date, expiry_date, timestamps) are omitted.
The break_times JSONB column is documented in the schema but is read by no
route and by no generator, so it does not appear here either. -/
structure SchedRow where
  physician_id : Nat
  location_id : Nat
  day_of_week : Nat
  start_time : Nat
  end_time : Nat
  lunch_start : Option Nat
  lunch_end : Option Nat
  is_active : Bool
deriving Repr, DecidableEq

/-- A row of appointments (src/unnamed/part_001 lines 193-226); only the
columns the scheduling and booking routes read are carried. -/
structure Appt where
  id : Nat
  patient_id : Nat
  physician_id : Nat
  location_id : Nat
  appointment_date : Nat
  start_time : Nat
  end_time : Nat
  status : String
deriving Repr, DecidableEq

/-- An emitted slot: the JS object noted as start/end/available pushed by
generateTimeSlots (4.multi_location_backend_api.js lines 474-478).  The JS
field named end is rendered stop, since end is a Lean keyword. -/
structure Slot where
  start : Nat
  stop : Nat
  available : Bool
deriving Repr, DecidableEq

/-- The lunch test of generateTimeSlots (4.multi_location_backend_api.js lines
457-459): skip when lunch_start <= currentTime < lunch_end (moment isBetween
with bounds [ and ) ) or lunch_start < slotEnd <= lunch_end (bounds ( and ] );
absent lunch columns (SQL NULL, JS falsy guard) never match. -/
def lunchConflict (lunchStart lunchEnd : Option Nat) (currentTime slotEnd : Nat) : Bool :=
  match lunchStart, lunchEnd with
  | some ls, some le =>
      decide (ls ≤ currentTime ∧ currentTime < le) || decide (ls < slotEnd ∧ slotEnd ≤ le)
  | _, _ => false

/-- One appointment's clause of the booking test (4.multi_location_backend_api.js
lines 465-470): the candidate slot starts inside the appointment, ends inside
it, or contains it (isSameOrBefore / isSameOrAfter on the third clause). -/
def isBookedBy (currentTime slotEnd : Nat) (apt : Appt) : Bool :=
  decide (apt.start_time ≤ currentTime ∧ currentTime < apt.end_time) ||
  decide (apt.start_time < slotEnd ∧ slotEnd ≤ apt.end_time) ||
  decide (currentTime ≤ apt.start_time ∧ apt.end_time ≤ slotEnd)

/-- bookedAppointments.some(...) over the clause above (line 465). -/
def isBooked (bookedAppointments : List Appt) (currentTime slotEnd : Nat) : Bool :=
  bookedAppointments.any (isBookedBy currentTime slotEnd)

/-- The while-loop of generateTimeSlots (4.multi_location_backend_api.js lines
446-482), embedded with an explicit fuel parameter standing for the remaining
loop iterations.  Each iteration either returns or advances currentTime by
slotDuration, so for slotDuration >= 1 the loop runs at most
endTime - startTime <= endTime times and a fuel of endTime + 1 (supplied by
generateTimeSlots below) is never exhausted; the JS loop does not terminate
for slotDuration = 0, a value no caller supplies (callers pass 30 or the JS
default 30). -/
def generateTimeSlotsGo (endTime : Nat) (lunchStart lunchEnd : Option Nat)
    (bookedAppointments : List Appt) (slotDuration : Nat) :
    Nat → Nat → List Slot
  | 0, _ => []
  | fuel + 1, currentTime =>
    if currentTime < endTime then
      if endTime < currentTime + slotDuration then
        []
      else if lunchConflict lunchStart lunchEnd currentTime (currentTime + slotDuration) then
        generateTimeSlotsGo endTime lunchStart lunchEnd bookedAppointments slotDuration
          fuel (currentTime + slotDuration)
      else if isBooked bookedAppointments currentTime (currentTime + slotDuration) then
        generateTimeSlotsGo endTime lunchStart lunchEnd bookedAppointments slotDuration
          fuel (currentTime + slotDuration)
      else
        { start := currentTime, stop := currentTime + slotDuration, available := true } ::
          generateTimeSlotsGo endTime lunchStart lunchEnd bookedAppointments slotDuration
            fuel (currentTime + slotDuration)
    else []

/-- generateTimeSlots (4.multi_location_backend_api.js lines 439-485).  The JS
default parameter slotDuration = 30 is passed explicitly by the callers in
this embedding. -/
def generateTimeSlots (schedule : SchedRow) (bookedAppointments : List Appt)
    (slotDuration : Nat) : List Slot :=
  generateTimeSlotsGo schedule.end_time schedule.lunch_start schedule.lunch_end
    bookedAppointments slotDuration (schedule.end_time + 1) schedule.start_time

/-- Every slot produced by the loop is marked available, spans exactly one
slot duration, ends no later than the working-period end, starts on the grid
anchored at the cursor, and passes both the lunch test and the booking test. -/
theorem mem_generateTimeSlotsGo {endTime : Nat} {lunchStart lunchEnd : Option Nat}
    {booked : List Appt} {dur : Nat} {fuel : Nat} {currentTime : Nat} {s : Slot}
    (h : s ∈ generateTimeSlotsGo endTime lunchStart lunchEnd booked dur fuel currentTime) :
    s.available = true ∧ s.stop = s.start + dur ∧ s.stop ≤ endTime ∧
    (∃ k, s.start = currentTime + k * dur) ∧
    lunchConflict lunchStart lunchEnd s.start s.stop = false ∧
    isBooked booked s.start s.stop = false := by
  induction fuel generalizing currentTime with
  | zero => simp [generateTimeSlotsGo] at h
  | succ fuel ih =>
    rw [generateTimeSlotsGo] at h
    by_cases h1 : currentTime < endTime
    · simp only [if_pos h1] at h
      by_cases h2 : endTime < currentTime + dur
      · simp [if_pos h2] at h
      · simp only [if_neg h2] at h
        by_cases h3 : lunchConflict lunchStart lunchEnd currentTime (currentTime + dur) = true
        · simp only [if_pos h3] at h
          obtain ⟨ha, hd, he, ⟨k, hk⟩, hl, hb⟩ := ih h
          exact ⟨ha, hd, he, ⟨k + 1, by rw [hk, Nat.succ_mul]; omega⟩, hl, hb⟩
        · simp only [if_neg h3] at h
          by_cases h4 : isBooked booked currentTime (currentTime + dur) = true
          · simp only [if_pos h4] at h
            obtain ⟨ha, hd, he, ⟨k, hk⟩, hl, hb⟩ := ih h
            exact ⟨ha, hd, he, ⟨k + 1, by rw [hk, Nat.succ_mul]; omega⟩, hl, hb⟩
          · simp only [if_neg h4, List.mem_cons] at h
            rcases h with h | h
            · subst h
              refine ⟨rfl, rfl, ?_, ⟨0, ?_⟩, ?_, ?_⟩
              · show currentTime + dur ≤ endTime
                omega
              · show currentTime = currentTime + 0 * dur
                omega
              · exact Bool.eq_false_iff.mpr h3
              · exact Bool.eq_false_iff.mpr h4
            · obtain ⟨ha, hd, he, ⟨k, hk⟩, hl, hb⟩ := ih h
              exact ⟨ha, hd, he, ⟨k + 1, by rw [hk, Nat.succ_mul]; omega⟩, hl, hb⟩
    · simp [if_neg h1] at h

/-- Corollary of the grid invariant: emitted slots never start before the
cursor. -/
theorem start_le_of_mem_generateTimeSlotsGo {endTime : Nat}
    {lunchStart lunchEnd : Option Nat} {booked : List Appt}
    {dur fuel currentTime : Nat} {s : Slot}
    (h : s ∈ generateTimeSlotsGo endTime lunchStart lunchEnd booked dur fuel currentTime) :
    currentTime ≤ s.start := by
  obtain ⟨-, -, -, ⟨k, hk⟩, -, -⟩ := mem_generateTimeSlotsGo h
  omega

/-- The emitted sequence is sorted: each slot ends no later than any later
slot starts. -/
theorem pairwise_generateTimeSlotsGo {endTime : Nat} {lunchStart lunchEnd : Option Nat}
    {booked : List Appt} {dur : Nat} (fuel currentTime : Nat) :
    List.Pairwise (fun a b => a.stop ≤ b.start)
      (generateTimeSlotsGo endTime lunchStart lunchEnd booked dur fuel currentTime) := by
  induction fuel generalizing currentTime with
  | zero => simp [generateTimeSlotsGo]
  | succ fuel ih =>
    rw [generateTimeSlotsGo]
    by_cases h1 : currentTime < endTime
    · simp only [if_pos h1]
      by_cases h2 : endTime < currentTime + dur
      · simp [if_pos h2]
      · simp only [if_neg h2]
        by_cases h3 : lunchConflict lunchStart lunchEnd currentTime (currentTime + dur) = true
        · simpa [if_pos h3] using ih (currentTime + dur)
        · simp only [if_neg h3]
          by_cases h4 : isBooked booked currentTime (currentTime + dur) = true
          · simpa [if_pos h4] using ih (currentTime + dur)
          · simp only [if_neg h4]
            refine List.Pairwise.cons ?_ (ih (currentTime + dur))
            intro b hb
            exact start_le_of_mem_generateTimeSlotsGo hb
    · simp [if_neg h1]

/-- If the candidate interval genuinely overlaps an appointment under the
half-open rule, the booking test of generateTimeSlots flags it. -/
theorem isBookedBy_of_overlaps {c e : Nat} {a : Appt}
    (h : overlaps c e a.start_time a.end_time) : isBookedBy c e a = true := by
  obtain ⟨h1, h2⟩ := h
  unfold isBookedBy
  simp only [Bool.or_eq_true, decide_eq_true_eq]
  omega

/-- No slot emitted by generateTimeSlots overlaps any appointment of the
booked list it was given. -/
theorem generateTimeSlots_not_overlaps {schedule : SchedRow} {booked : List Appt}
    {dur : Nat} {s : Slot} {a : Appt}
    (hs : s ∈ generateTimeSlots schedule booked dur) (ha : a ∈ booked) :
    ¬ overlaps s.start s.stop a.start_time a.end_time := by
  intro hover
  obtain ⟨-, -, -, -, -, hb⟩ := mem_generateTimeSlotsGo hs
  rw [isBooked, List.any_eq_false] at hb
  exact absurd (isBookedBy_of_overlaps hover) (by simpa using hb a ha)

/-- A row of physician_availability_exceptions (src/unnamed/part_001 lines
314-330); location_id is nullable, and the recurring columns, which no route
reads, are omitted. -/
structure AvailEx where
  physician_id : Nat
  location_id : Option Nat
  exception_date : Nat
  exception_type : String
  start_time : Option Nat
  end_time : Option Nat
  reason : Option String
deriving Repr, DecidableEq

/-- A row of locations (only id and name are read by the scheduling routes). -/
structure Location where
  id : Nat
  name : String
deriving Repr, DecidableEq

/-- A row of physicians joined with users (only the columns the alternatives
route reads: id, specialty, is_active, and the user's names). -/
structure Physician where
  id : Nat
  specialty : String
  is_active : Bool
  first_name : String
  last_name : String
deriving Repr, DecidableEq

/-- A row of physician_locations (the many-to-many assignment table,
src/unnamed/part_001 lines 109-119). -/
structure PhysLocRow where
  physician_id : Nat
  location_id : Nat
deriving Repr, DecidableEq

/-- The tables the scheduling and booking routes touch, as in-memory lists. -/
structure DB where
  locations : List Location
  physicians : List Physician
  physician_locations : List PhysLocRow
  schedules : List SchedRow
  appointments : List Appt
  exceptions : List AvailEx
deriving Repr

/-- moment(date).day() for a date modelled as a day number. -/
def dayOfWeek (date : Nat) : Nat := date % 7

/-- The SQL status filter status NOT IN ('cancelled', 'no_show') used by the
availability, booking and alternatives queries. -/
def statusActive (status : String) : Bool :=
  decide (status ≠ "cancelled" ∧ status ≠ "no_show")

/-- The appointments query of the availability route
(4.multi_location_backend_api.js lines 381-387): all of the physician's
appointments on the date whose status is neither cancelled nor no_show. -/
def fetchAppointments (appts : List Appt) (physicianId date : Nat) : List Appt :=
  appts.filter (fun a =>
    decide (a.physician_id = physicianId ∧ a.appointment_date = date) && statusActive a.status)

/-- The exceptions query of the availability route (lines 390-394): all of the
physician's availability exceptions for the date, at every location. -/
def fetchExceptions (exs : List AvailEx) (physicianId date : Nat) : List AvailEx :=
  exs.filter (fun e =>
    decide (e.physician_id = physicianId ∧ e.exception_date = date))

/-- The per-location availability object assembled at lines 396-425.  The JS
object has no reason key on the normal branch; that is modelled as none. -/
structure LocationReport where
  location_id : Nat
  location_name : String
  available : Bool
  slots : List Slot
  reason : Option String
deriving Repr, DecidableEq

/-- The body of the schedules.rows.map callback (lines 396-425): filter the
day's appointments to this schedule's location, look for an exception at
exactly this location (exceptions.rows.find with exc.location_id ===
schedule.location_id; a NULL location_id never compares equal to a number),
return the unavailable report when the found exception has type unavailable,
and otherwise generate slots with the JS default duration 30. -/
def locationReport (schedule : SchedRow) (locationName : String)
    (appointments : List Appt) (exceptions : List AvailEx) : LocationReport :=
  let locationAppointments :=
    appointments.filter (fun a => decide (a.location_id = schedule.location_id))
  match exceptions.find? (fun e => decide (e.location_id = some schedule.location_id)) with
  | some e =>
    if e.exception_type = "unavailable" then
      { location_id := schedule.location_id, location_name := locationName,
        available := false, slots := [], reason := e.reason }
    else
      let slots := generateTimeSlots schedule locationAppointments 30
      { location_id := schedule.location_id, location_name := locationName,
        available := decide (0 < slots.length), slots := slots, reason := none }
  | none =>
    let slots := generateTimeSlots schedule locationAppointments 30
    { location_id := schedule.location_id, location_name := locationName,
      available := decide (0 < slots.length), slots := slots, reason := none }

/-- The schedules query of the availability route (lines 361-374): active
rows for the physician and day of week, optionally restricted to one
location. -/
def scheduleRowsFor (schedules : List SchedRow) (physicianId dow : Nat)
    (locationFilter : Option Nat) : List SchedRow :=
  schedules.filter (fun s =>
    decide (s.physician_id = physicianId ∧ s.day_of_week = dow) && s.is_active &&
      match locationFilter with
      | some lid => decide (s.location_id = lid)
      | none => true)

/-- The JOIN locations l ON pls.location_id = l.id of the same query: each
schedule row is paired with its location's name; a row whose location has no
locations row is dropped by the inner join (the schema's foreign key makes
this vacuous on well-formed data). -/
def joinedScheduleRows (db : DB) (physicianId dow : Nat)
    (locationFilter : Option Nat) : List (SchedRow × String) :=
  (scheduleRowsFor db.schedules physicianId dow locationFilter).filterMap (fun s =>
    (db.locations.find? (fun l => decide (l.id = s.location_id))).map (fun l => (s, l.name)))

/-- The response of GET /api/physicians/:id/availability. -/
structure AvailabilityResult where
  available : Bool
  locations : List LocationReport
deriving Repr, DecidableEq

/-- GET /api/physicians/:id/availability (lines 349-436): resolve the day of
week, fetch schedules (with optional location filter), the day's active
appointments and the day's exceptions, build one report per schedule row, and
aggregate available as some(loc.available).  The early return for an empty
schedule list (line 377) produces available false and an empty location list,
which coincides with this expression. -/
def getAvailability (db : DB) (physicianId date : Nat)
    (locationFilter : Option Nat) : AvailabilityResult :=
  let rows := joinedScheduleRows db physicianId (dayOfWeek date) locationFilter
  let appointments := fetchAppointments db.appointments physicianId date
  let exceptions := fetchExceptions db.exceptions physicianId date
  let reports := rows.map (fun sl => locationReport sl.1 sl.2 appointments exceptions)
  { available := reports.any (fun r => r.available), locations := reports }

/-- Every report produced by getAvailability is the locationReport of one of
the joined schedule rows. -/
theorem mem_getAvailability_locations {db : DB} {physicianId date : Nat}
    {locationFilter : Option Nat} {report : LocationReport}
    (h : report ∈ (getAvailability db physicianId date locationFilter).locations) :
    ∃ sl ∈ joinedScheduleRows db physicianId (dayOfWeek date) locationFilter,
      report = locationReport sl.1 sl.2
        (fetchAppointments db.appointments physicianId date)
        (fetchExceptions db.exceptions physicianId date) := by
  simp only [getAvailability, List.mem_map] at h
  obtain ⟨sl, hsl, hrep⟩ := h
  exact ⟨sl, hsl, hrep.symm⟩

/-- In every branch of locationReport the report carries the schedule row's
location id. -/
theorem locationReport_location_id (schedule : SchedRow) (locationName : String)
    (appointments : List Appt) (exceptions : List AvailEx) :
    (locationReport schedule locationName appointments exceptions).location_id =
      schedule.location_id := by
  simp only [locationReport]
  split
  · split <;> rfl
  · rfl

/-- Every slot a locationReport exposes comes from generateTimeSlots on the
schedule row and the location-filtered appointment list (the unavailable
branch exposes no slots). -/
theorem mem_locationReport_slots {schedule : SchedRow} {locationName : String}
    {appointments : List Appt} {exceptions : List AvailEx} {s : Slot}
    (h : s ∈ (locationReport schedule locationName appointments exceptions).slots) :
    s ∈ generateTimeSlots schedule
        (appointments.filter (fun a => decide (a.location_id = schedule.location_id))) 30 := by
  simp only [locationReport] at h
  split at h
  · split at h
    · simp at h
    · simpa using h
  · simpa using h

/-- C1: no slot emitted for a location by the availability computation
overlaps, under the half-open rule, any appointment of the same physician,
date and location whose status is neither cancelled nor no_show; the booking
test also rejects the boundary cases where the appointment contains the
candidate or vice versa. -/
theorem availability_slots_avoid_active_bookings
    (db : DB) (physicianId date : Nat) (locationFilter : Option Nat)
    (report : LocationReport)
    (hrep : report ∈ (getAvailability db physicianId date locationFilter).locations)
    (s : Slot) (hs : s ∈ report.slots)
    (a : Appt) (ha : a ∈ db.appointments)
    (hphys : a.physician_id = physicianId) (hdate : a.appointment_date = date)
    (hloc : a.location_id = report.location_id)
    (hstatus : statusActive a.status = true) :
    ¬ overlaps s.start s.stop a.start_time a.end_time := by
  obtain ⟨sl, hsl, hreq⟩ := mem_getAvailability_locations hrep
  subst hreq
  have hs' := mem_locationReport_slots hs
  have hloc' : a.location_id = sl.1.location_id := by
    rw [hloc, locationReport_location_id]
  refine generateTimeSlots_not_overlaps hs' ?_
  have h1 : a ∈ fetchAppointments db.appointments physicianId date := by
    refine List.mem_filter.mpr ⟨ha, ?_⟩
    simp [hphys, hdate, hstatus]
  exact List.mem_filter.mpr ⟨h1, by simp [hloc']⟩

/-- Witness for C1: a concrete database with one schedule row and one active
booking; the emitted slots avoid the booking. -/
theorem availability_slots_avoid_active_bookings_witness :
    ((⟨1, "Main", true, [⟨540, 570, true⟩, ⟨600, 630, true⟩], none⟩ : LocationReport) ∈
      (getAvailability
        ⟨[⟨1, "Main"⟩], [], [], [⟨1, 1, 0, 540, 630, none, none, true⟩],
          [⟨2, 1, 1, 1, 7, 570, 600, "scheduled"⟩], []⟩ 1 7 none).locations) ∧
    ((⟨540, 570, true⟩ : Slot) ∈
      (⟨1, "Main", true, [⟨540, 570, true⟩, ⟨600, 630, true⟩], none⟩ : LocationReport).slots) ∧
    ¬ overlaps 540 570 570 600 :=
  ⟨by decide, by decide,
    availability_slots_avoid_active_bookings
      ⟨[⟨1, "Main"⟩], [], [], [⟨1, 1, 0, 540, 630, none, none, true⟩],
        [⟨2, 1, 1, 1, 7, 570, 600, "scheduled"⟩], []⟩ 1 7 none
      ⟨1, "Main", true, [⟨540, 570, true⟩, ⟨600, 630, true⟩], none⟩ (by decide)
      ⟨540, 570, true⟩ (by decide)
      ⟨2, 1, 1, 1, 7, 570, 600, "scheduled"⟩ (by decide)
      (by decide) (by decide) (by decide) (by decide)⟩

/-- find? is unchanged by first filtering with a predicate that holds wherever
the searched-for predicate does. -/
theorem find?_filter_subpred {α : Type} (l : List α) (p q : α → Bool)
    (h : ∀ x, p x = true → q x = true) :
    (l.filter q).find? p = l.find? p := by
  induction l with
  | nil => rfl
  | cons x xs ih =>
    cases hq : q x with
    | true =>
      cases hp : p x with
      | true => simp [List.filter_cons, List.find?, hq, hp]
      | false => simp [List.filter_cons, List.find?, hq, hp, ih]
    | false =>
      have hp : p x = false := by
        cases hpx : p x
        · rfl
        · exact absurd (h x hpx) (by simp [hq])
      simp [List.filter_cons, List.find?, hq, hp, ih]

/-- C3 counterexample: with a working period 09:00-17:00 (540-1020) and a
modified_hours exception overriding to 10:00-12:00 (600-720) for that date and
location, the availability computation still starts its slots at 540: the
route only tests exception_type === 'unavailable' (line 406) and never reads
the exception's override start/end, so the claim that the override times are
used in place of the WorkingPeriod's own times is false on the code. -/
theorem modified_hours_override_ignored_cex :
    ((getAvailability
        ⟨[⟨1, "Main"⟩], [], [], [⟨1, 1, 1, 540, 1020, none, none, true⟩], [],
          [⟨1, some 1, 8, "modified_hours", some 600, some 720, some "late start"⟩]⟩
        1 8 none).locations.map
      (fun r => (r.available, r.slots.head?.map Slot.start))) = [(true, some 540)] ∧
    540 < 600 := by
  constructor
  · decide
  · decide

/-- C3 (amended): a modified-hours exception has no effect on the availability
computation: whenever the exception found for the schedule's location is not
of kind unavailable (in particular for kind modified_hours), the location
report is identical to the one computed with no exceptions at all, so the
WorkingPeriod's own start/end are used and the override times are ignored. -/
theorem modified_hours_exception_has_no_effect (schedule : SchedRow)
    (locationName : String) (appointments : List Appt) (exceptions : List AvailEx)
    (h : ∀ e, exceptions.find?
        (fun e => decide (e.location_id = some schedule.location_id)) = some e →
      e.exception_type ≠ "unavailable") :
    locationReport schedule locationName appointments exceptions =
      locationReport schedule locationName appointments [] := by
  simp only [locationReport, List.find?_nil]
  split
  next e heq => simp [h e heq]
  next => rfl

/-- Witness for the amended C3: a modified_hours exception leaves the report
equal to the exception-free report. -/
theorem modified_hours_exception_has_no_effect_witness :
    locationReport ⟨1, 1, 1, 540, 1020, none, none, true⟩ "Main" []
        [⟨1, some 1, 8, "modified_hours", some 600, some 720, some "late start"⟩] =
      locationReport ⟨1, 1, 1, 540, 1020, none, none, true⟩ "Main" [] [] :=
  modified_hours_exception_has_no_effect ⟨1, 1, 1, 540, 1020, none, none, true⟩ "Main" []
    [⟨1, some 1, 8, "modified_hours", some 600, some 720, some "late start"⟩]
    (by decide)

/-- C4: when the exception found for a report's location has kind unavailable,
the availability computation returns that location as unavailable, with an
empty slot list and the exception's reason, whatever the WorkingPeriod for
that day says. -/
theorem unavailable_exception_suppresses_slots
    (db : DB) (physicianId date : Nat) (locationFilter : Option Nat)
    (report : LocationReport)
    (hrep : report ∈ (getAvailability db physicianId date locationFilter).locations)
    (e : AvailEx)
    (hfind : (fetchExceptions db.exceptions physicianId date).find?
        (fun x => decide (x.location_id = some report.location_id)) = some e)
    (htype : e.exception_type = "unavailable") :
    report.available = false ∧ report.slots = [] ∧ report.reason = e.reason := by
  obtain ⟨sl, hsl, hreq⟩ := mem_getAvailability_locations hrep
  have hlid : report.location_id = sl.1.location_id := by
    rw [hreq, locationReport_location_id]
  rw [hlid] at hfind
  rw [hreq]
  simp only [locationReport, hfind]
  simp [htype]

/-- Witness for C4: one schedule row and one unavailable exception with a
reason produce the suppressed report. -/
theorem unavailable_exception_suppresses_slots_witness :
    (⟨1, "Main", false, [], some "holiday"⟩ : LocationReport).available = false ∧
    (⟨1, "Main", false, [], some "holiday"⟩ : LocationReport).slots = [] ∧
    (⟨1, "Main", false, [], some "holiday"⟩ : LocationReport).reason = some "holiday" :=
  unavailable_exception_suppresses_slots
    ⟨[⟨1, "Main"⟩], [], [], [⟨1, 1, 1, 540, 1020, none, none, true⟩], [],
      [⟨1, some 1, 8, "unavailable", none, none, some "holiday"⟩]⟩ 1 8 none
    ⟨1, "Main", false, [], some "holiday"⟩ (by decide)
    ⟨1, some 1, 8, "unavailable", none, none, some "holiday"⟩ (by decide) rfl

/-- C5 counterexample: a location-agnostic exception (location_id NULL) of
kind unavailable for the physician and date is never looked up: the route's
find compares exc.location_id === schedule.location_id (line 401), NULL never
equals a location id, so the physician is still reported available with a
full slot list, contradicting the claimed fallback to (physician, null,
date). -/
theorem null_location_exception_ignored_cex :
    (getAvailability
        ⟨[⟨1, "Main"⟩], [], [], [⟨1, 1, 1, 540, 600, none, none, true⟩], [],
          [⟨1, none, 8, "unavailable", none, none, some "conference"⟩]⟩
        1 8 none).available = true ∧
    ((getAvailability
        ⟨[⟨1, "Main"⟩], [], [], [⟨1, 1, 1, 540, 600, none, none, true⟩], [],
          [⟨1, none, 8, "unavailable", none, none, some "conference"⟩]⟩
        1 8 none).locations.map
      (fun r => (r.available, r.slots.length, r.reason))) = [(true, 2, none)] := by
  constructor
  · decide
  · decide

/-- C5 (amended): only exceptions whose location_id equals the schedule row's
location are consulted; exceptions with a NULL location_id never match the
lookup and have no effect: deleting them from the table leaves every location
report unchanged. -/
theorem null_location_exceptions_no_effect (schedule : SchedRow)
    (locationName : String) (appointments : List Appt) (exceptions : List AvailEx) :
    locationReport schedule locationName appointments
        (exceptions.filter (fun e => e.location_id.isSome)) =
      locationReport schedule locationName appointments exceptions := by
  have hf : (exceptions.filter (fun e => e.location_id.isSome)).find?
        (fun e => decide (e.location_id = some schedule.location_id)) =
      exceptions.find? (fun e => decide (e.location_id = some schedule.location_id)) := by
    refine find?_filter_subpred exceptions _ _ ?_
    intro x hx
    simp only [decide_eq_true_eq] at hx
    simp [hx]
  unfold locationReport
  rw [hf]

/-- C6: the claim (no emitted slot overlaps the lunch interval or any break
interval, with partially-overlapping candidates excluded entirely) fails on
the code.  With working hours 09:00-10:00 (540-600), lunch 09:10-09:20
(550-560) and slot duration 30, generateTimeSlots emits the slot 540-570,
which strictly contains the lunch interval and overlaps it under the
half-open rule: the lunch test at lines 457-459 checks only whether the
candidate's start or end falls inside the lunch window and misses the case
where the candidate contains it (and break_times are never consulted at all). -/
theorem lunch_containment_overlap_bug :
    (⟨540, 570, true⟩ : Slot) ∈
      generateTimeSlots ⟨1, 1, 1, 540, 600, some 550, some 560, true⟩ [] 30 ∧
    overlaps 540 570 550 560 := by
  constructor
  · decide
  · decide

/-- C7 (amended): for the multi-location generator generateTimeSlots, when
the working period's length is not an exact multiple of the slot duration,
no emitted slot ends past the working-period end (the loop breaks as soon as
the candidate's end would exceed it, so the trailing remainder produces no
slot there).  The part_001 available-slots route lacks this check; the
counterexample for this claim exhibits a trailing slot past the end there. -/
theorem slots_end_within_working_period (schedule : SchedRow) (booked : List Appt)
    (dur : Nat) (h : (schedule.end_time - schedule.start_time) % dur ≠ 0) :
    ∀ s ∈ generateTimeSlots schedule booked dur, s.stop ≤ schedule.end_time := by
  intro s hs
  exact (mem_generateTimeSlotsGo hs).2.2.1

/-- Witness for C7 at working hours 540-605 and slot duration 30 (length 65,
not a multiple of 30). -/
theorem slots_end_within_working_period_witness :
    ((605 - 540 : Nat) % 30 ≠ 0) ∧
    ∀ s ∈ generateTimeSlots ⟨1, 1, 1, 540, 605, none, none, true⟩ [] 30, s.stop ≤ 605 :=
  ⟨by decide,
    slots_end_within_working_period ⟨1, 1, 1, 540, 605, none, none, true⟩ [] 30 (by decide)⟩

/-- C8 counterexample: the claim says consecutive emitted slots are contiguous,
but with working hours 540-630, slot duration 30 and a booked appointment
570-600 (status scheduled) the generator emits 540-570 followed by 600-630,
which are not contiguous (570 differs from 600): a skipped candidate leaves a
gap between consecutive emitted slots. -/
theorem slots_not_contiguous_cex :
    generateTimeSlots ⟨1, 1, 1, 540, 630, none, none, true⟩
        [⟨2, 1, 1, 1, 7, 570, 600, "scheduled"⟩] 30 =
      [⟨540, 570, true⟩, ⟨600, 630, true⟩] ∧
    ¬ List.Chain' (fun a b => a.stop = b.start)
        (generateTimeSlots ⟨1, 1, 1, 540, 630, none, none, true⟩
          [⟨2, 1, 1, 1, 7, 570, 600, "scheduled"⟩] 30) := by
  constructor
  · decide
  · intro hchain
    rw [show generateTimeSlots ⟨1, 1, 1, 540, 630, none, none, true⟩
          [⟨2, 1, 1, 1, 7, 570, 600, "scheduled"⟩] 30 =
        [⟨540, 570, true⟩, ⟨600, 630, true⟩] from by decide] at hchain
    simp [List.chain'_cons] at hchain

/-- C8 (amended): every emitted slot spans exactly the configured slot
duration, and the emitted sequence is non-overlapping, each slot ending no
later than any later slot starts; consecutive slots need not be contiguous,
since skipped candidates leave gaps. -/
theorem slots_duration_and_ordering (schedule : SchedRow) (booked : List Appt) (dur : Nat) :
    (∀ s ∈ generateTimeSlots schedule booked dur, s.stop = s.start + dur) ∧
    List.Pairwise (fun a b => a.stop ≤ b.start) (generateTimeSlots schedule booked dur) := by
  constructor
  · intro s hs
    exact (mem_generateTimeSlotsGo hs).2.1
  · exact pairwise_generateTimeSlotsGo _ _

/-- Witness for the amended C8 at a concrete schedule. -/
theorem slots_duration_and_ordering_witness :
    (∀ s ∈ generateTimeSlots ⟨1, 1, 1, 540, 630, none, none, true⟩ [] 30,
        s.stop = s.start + 30) ∧
    List.Pairwise (fun a b => a.stop ≤ b.start)
      (generateTimeSlots ⟨1, 1, 1, 540, 630, none, none, true⟩ [] 30) :=
  slots_duration_and_ordering ⟨1, 1, 1, 540, 630, none, none, true⟩ [] 30

/-- C10: every emitted slot starts on the fixed grid anchored at the
working-period start: the sweep advances the cursor by exactly one slot
duration whether the candidate is emitted or skipped, so each start time is
the schedule start plus a multiple of the duration. -/
theorem slots_on_duration_grid (schedule : SchedRow) (booked : List Appt) (dur : Nat)
    (s : Slot) (hs : s ∈ generateTimeSlots schedule booked dur) :
    ∃ k, s.start = schedule.start_time + k * dur :=
  (mem_generateTimeSlotsGo hs).2.2.2.1

/-- Witness for C10: the slot 600-630 emitted after a skipped booked candidate
still lies on the 30-minute grid anchored at 540. -/
theorem slots_on_duration_grid_witness :
    ((⟨600, 630, true⟩ : Slot) ∈
      generateTimeSlots ⟨1, 1, 1, 540, 630, none, none, true⟩
        [⟨2, 1, 1, 1, 7, 570, 600, "scheduled"⟩] 30) ∧
    ∃ k, 600 = 540 + k * 30 :=
  ⟨by decide,
    slots_on_duration_grid ⟨1, 1, 1, 540, 630, none, none, true⟩
      [⟨2, 1, 1, 1, 7, 570, 600, "scheduled"⟩] 30 ⟨600, 630, true⟩ (by decide)⟩

/-- The physician-at-location validation of the booking routes
(4.multi_location_backend_api.js lines 518-525 and 754-761): SELECT * FROM
physician_locations WHERE physician_id = $1 AND location_id = $2 returns at
least one row. -/
def physicianAtLocation (physLocs : List PhysLocRow) (physicianId locationId : Nat) : Bool :=
  physLocs.any (fun pl => decide (pl.physician_id = physicianId ∧ pl.location_id = locationId))

/-- The conflict query of POST /api/appointments (lines 528-533): an
appointment with the exact same physician, location, date and start time
whose status is neither cancelled nor no_show. -/
def conflictExists (appts : List Appt) (physicianId locationId date startTime : Nat) : Bool :=
  appts.any (fun a =>
    decide (a.physician_id = physicianId ∧ a.location_id = locationId ∧
      a.appointment_date = date ∧ a.start_time = startTime) && statusActive a.status)

/-- The conflict query of PUT /api/appointments/:id (lines 765-770): as above
but with AND id != $5, excluding the appointment being rescheduled. -/
def conflictExistsExcluding (appts : List Appt)
    (physicianId locationId date startTime excludedId : Nat) : Bool :=
  appts.any (fun a =>
    decide (a.physician_id = physicianId ∧ a.location_id = locationId ∧
      a.appointment_date = date ∧ a.start_time = startTime) && statusActive a.status &&
      decide (a.id ≠ excludedId))

/-- Outcome of POST /api/appointments; created carries the inserted row. -/
inductive CreateResult where
  | physicianNotAtLocation
  | slotConflict
  | created (appt : Appt)
deriving Repr, DecidableEq

/-- POST /api/appointments (lines 488-610), starting after the
patient-profile resolution (an authentication concern, out of scope per spec
section 1, modelled by the already-resolved patientId argument): validate
that the physician works at the location, re-check the slot, then insert the
appointment row with the schema's default status scheduled (newId models the
SERIAL id).  The payment and reminder inserts touch other tables and are not
modelled.  The route returns before the INSERT on either failure, so the
appointments table is returned unchanged there. -/
def createAppointment (db : DB) (patientId physicianId locationId : Nat)
    (appointmentDate startTime endTime : Nat) (newId : Nat) : CreateResult × DB :=
  if physicianAtLocation db.physician_locations physicianId locationId = false then
    (.physicianNotAtLocation, db)
  else if conflictExists db.appointments physicianId locationId appointmentDate startTime then
    (.slotConflict, db)
  else
    let newAppt : Appt :=
      { id := newId, patient_id := patientId, physician_id := physicianId,
        location_id := locationId, appointment_date := appointmentDate,
        start_time := startTime, end_time := endTime, status := "scheduled" }
    (.created newAppt, { db with appointments := db.appointments ++ [newAppt] })

/-- The optional body fields of PUT /api/appointments/:id that the scheduling
logic reads (notes and cancellationReason only touch columns no claim
mentions and are omitted). -/
structure UpdateRequest where
  status : Option String
  appointmentDate : Option Nat
  startTime : Option Nat
  endTime : Option Nat
  locationId : Option Nat
  physicianId : Option Nat
deriving Repr, DecidableEq

/-- Outcome of PUT /api/appointments/:id.  updateError is the 500 response
every request that passes the guards receives: the dynamic UPDATE built at
lines 730-814 interpolates the counter as a template-literal value,
writing its text into the SQL instead of a $n placeholder (the first column
after updated_by is set to the literal 2, and the WHERE clause compares id to
the final counter value), while only $1 remains a real placeholder and the
params array holds every value; the database rejects the statement at line
816 with a parameter-count mismatch, the catch at line 835 fires and the
transaction is rolled back, so this route never writes an appointment row. -/
inductive UpdateResult where
  | notFound
  | physicianNotAtLocation
  | slotConflict
  | updateError
deriving Repr, DecidableEq

/-- The truthiness test at line 745: a reschedule is requested when any of
appointmentDate, startTime, locationId, physicianId is present. -/
def reschedulingRequested (req : UpdateRequest) : Bool :=
  req.appointmentDate.isSome || req.startTime.isSome ||
    req.locationId.isSome || req.physicianId.isSome

/-- The location-change validation of the reschedule branch (lines 753-762):
it fires only when a locationId is provided that differs from the current one
and the physician has no assignment at the new location. -/
def locationChangeBlocked (db : DB) (req : UpdateRequest) (appointment : Appt) : Bool :=
  (match req.locationId with
   | some lid => decide (lid ≠ appointment.location_id)
   | none => false) &&
    !physicianAtLocation db.physician_locations
      (req.physicianId.getD appointment.physician_id)
      (req.locationId.getD appointment.location_id)

/-- PUT /api/appointments/:id (lines 692-842), starting after the
patient-authorization check (out of scope per spec section 1): fetch the
current row (404 when absent); when a reschedule field is present, resolve
the new tuple with fallbacks to the current row, validate the physician at
the new location only when the location actually changes (lines 753-762),
and run the conflict query excluding this id, failing before any write on
conflict.  Past the guards, every request - with or without reschedule
fields - reaches the malformed dynamic UPDATE at line 816 (see
UpdateResult.updateError), which the database rejects; the transaction is
rolled back and the appointments table is never modified by this route. -/
def updateAppointment (db : DB) (id : Nat) (req : UpdateRequest) : UpdateResult × DB :=
  match db.appointments.find? (fun a => decide (a.id = id)) with
  | none => (.notFound, db)
  | some appointment =>
    if reschedulingRequested req then
      if locationChangeBlocked db req appointment then
        (.physicianNotAtLocation, db)
      else if conflictExistsExcluding db.appointments
          (req.physicianId.getD appointment.physician_id)
          (req.locationId.getD appointment.location_id)
          (req.appointmentDate.getD appointment.appointment_date)
          (req.startTime.getD appointment.start_time) id then
        (.slotConflict, db)
      else
        (.updateError, db)
    else
      (.updateError, db)

/-- The create-route conflict query matches exactly the exact-tuple,
active-status appointments. -/
theorem conflictExists_iff (appts : List Appt) (p l d st : Nat) :
    conflictExists appts p l d st = true ↔
      ∃ a ∈ appts, a.physician_id = p ∧ a.location_id = l ∧
        a.appointment_date = d ∧ a.start_time = st ∧
        a.status ≠ "cancelled" ∧ a.status ≠ "no_show" := by
  simp only [conflictExists, statusActive, List.any_eq_true, Bool.and_eq_true,
    decide_eq_true_eq]
  constructor
  · rintro ⟨a, ha, ⟨h1, h2, h3, h4⟩, h5, h6⟩
    exact ⟨a, ha, h1, h2, h3, h4, h5, h6⟩
  · rintro ⟨a, ha, h1, h2, h3, h4, h5, h6⟩
    exact ⟨a, ha, ⟨h1, h2, h3, h4⟩, h5, h6⟩

/-- The reschedule-route conflict query additionally excludes the row being
rescheduled. -/
theorem conflictExistsExcluding_iff (appts : List Appt) (p l d st xid : Nat) :
    conflictExistsExcluding appts p l d st xid = true ↔
      ∃ a ∈ appts, a.id ≠ xid ∧ a.physician_id = p ∧ a.location_id = l ∧
        a.appointment_date = d ∧ a.start_time = st ∧
        a.status ≠ "cancelled" ∧ a.status ≠ "no_show" := by
  simp only [conflictExistsExcluding, statusActive, List.any_eq_true, Bool.and_eq_true,
    decide_eq_true_eq]
  constructor
  · rintro ⟨a, ha, ⟨⟨h1, h2, h3, h4⟩, h5, h6⟩, h7⟩
    exact ⟨a, ha, h7, h1, h2, h3, h4, h5, h6⟩
  · rintro ⟨a, ha, h7, h1, h2, h3, h4, h5, h6⟩
    exact ⟨a, ha, ⟨⟨h1, h2, h3, h4⟩, h5, h6⟩, h7⟩

/-- C2: assuming the validations that precede the guard succeed (physician at
location for create; row found, a reschedule field present, and the
location-change validation passing for reschedule), the booking conflict
guard fails with SlotConflict exactly when an appointment with the identical
(physician, location, date, start-time) tuple and status neither cancelled
nor no_show exists, excluding the appointment being rescheduled by id on
reschedule; and when it fails the appointments table is unchanged.  On the
reschedule route the guard-free path never succeeds either: past the guard
the malformed dynamic UPDATE errors and rolls back (updateError above), so
the only failure carrying SlotConflict is exactly the guard's. -/
theorem booking_conflict_guard_iff :
    (∀ (db : DB) (patientId physicianId locationId appointmentDate startTime endTime newId : Nat),
      physicianAtLocation db.physician_locations physicianId locationId = true →
        (((createAppointment db patientId physicianId locationId appointmentDate
              startTime endTime newId).1 = .slotConflict) ↔
          ∃ a ∈ db.appointments, a.physician_id = physicianId ∧ a.location_id = locationId ∧
            a.appointment_date = appointmentDate ∧ a.start_time = startTime ∧
            a.status ≠ "cancelled" ∧ a.status ≠ "no_show") ∧
        ((createAppointment db patientId physicianId locationId appointmentDate
              startTime endTime newId).1 = .slotConflict →
          (createAppointment db patientId physicianId locationId appointmentDate
              startTime endTime newId).2 = db)) ∧
    (∀ (db : DB) (id : Nat) (req : UpdateRequest) (appointment : Appt),
      db.appointments.find? (fun a => decide (a.id = id)) = some appointment →
      reschedulingRequested req = true →
      (∀ lid, req.locationId = some lid → lid ≠ appointment.location_id →
        physicianAtLocation db.physician_locations
          (req.physicianId.getD appointment.physician_id) lid = true) →
        (((updateAppointment db id req).1 = .slotConflict) ↔
          ∃ a ∈ db.appointments, a.id ≠ id ∧
            a.physician_id = req.physicianId.getD appointment.physician_id ∧
            a.location_id = req.locationId.getD appointment.location_id ∧
            a.appointment_date = req.appointmentDate.getD appointment.appointment_date ∧
            a.start_time = req.startTime.getD appointment.start_time ∧
            a.status ≠ "cancelled" ∧ a.status ≠ "no_show") ∧
        ((updateAppointment db id req).1 = .slotConflict →
          (updateAppointment db id req).2 = db)) := by
  constructor
  · intro db patientId physicianId locationId appointmentDate startTime endTime newId hp
    by_cases hc : conflictExists db.appointments physicianId locationId
        appointmentDate startTime = true
    · have hres : createAppointment db patientId physicianId locationId appointmentDate
          startTime endTime newId = (.slotConflict, db) := by
        unfold createAppointment
        rw [hp]
        simp [hc]
      rw [hres]
      exact ⟨⟨fun _ => (conflictExists_iff _ _ _ _ _).mp hc, fun _ => rfl⟩, fun _ => rfl⟩
    · have hcf : conflictExists db.appointments physicianId locationId
          appointmentDate startTime = false := by
        simpa using hc
      have hres : (createAppointment db patientId physicianId locationId appointmentDate
          startTime endTime newId).1 =
          .created ⟨newId, patientId, physicianId, locationId, appointmentDate,
            startTime, endTime, "scheduled"⟩ := by
        unfold createAppointment
        rw [hp]
        simp [hcf]
      constructor
      · constructor
        · intro hcontra
          rw [hres] at hcontra
          cases hcontra
        · intro hex
          exact absurd ((conflictExists_iff _ _ _ _ _).mpr hex) (by simp [hcf])
      · intro hcontra
        rw [hres] at hcontra
        cases hcontra
  · intro db id req appointment hfind hresched hloc
    have hcond : locationChangeBlocked db req appointment = false := by
      unfold locationChangeBlocked
      rcases hl : req.locationId with _ | lid
      · simp [hl]
      · by_cases he : lid = appointment.location_id
        · simp [hl, he]
        · have := hloc lid hl he
          simp [hl, this]
    by_cases hc : conflictExistsExcluding db.appointments
        (req.physicianId.getD appointment.physician_id)
        (req.locationId.getD appointment.location_id)
        (req.appointmentDate.getD appointment.appointment_date)
        (req.startTime.getD appointment.start_time) id = true
    · have hres : updateAppointment db id req = (.slotConflict, db) := by
        unfold updateAppointment
        rw [hfind]
        simp [hresched, hcond, hc]
      rw [hres]
      exact ⟨⟨fun _ => (conflictExistsExcluding_iff _ _ _ _ _ _).mp hc, fun _ => rfl⟩,
        fun _ => rfl⟩
    · have hcf : conflictExistsExcluding db.appointments
          (req.physicianId.getD appointment.physician_id)
          (req.locationId.getD appointment.location_id)
          (req.appointmentDate.getD appointment.appointment_date)
          (req.startTime.getD appointment.start_time) id = false := by
        simpa using hc
      have hres : (updateAppointment db id req).1 = .updateError := by
        unfold updateAppointment
        rw [hfind]
        simp [hresched, hcond, hcf]
      constructor
      · constructor
        · intro hcontra
          rw [hres] at hcontra
          cases hcontra
        · intro hex
          exact absurd ((conflictExistsExcluding_iff _ _ _ _ _ _).mpr hex) (by simp [hcf])
      · intro hcontra
        rw [hres] at hcontra
        cases hcontra

/-- Witness for C2 (create half): with physician 1 assigned to location 1 and
an existing scheduled appointment at the exact tuple (1, 1, date 8, 540), the
create route fails with SlotConflict and writes nothing. -/
theorem booking_conflict_guard_iff_witness :
    physicianAtLocation (⟨[⟨1, "Main"⟩], [], [⟨1, 1⟩], [],
        [⟨3, 9, 1, 1, 8, 540, 570, "scheduled"⟩], []⟩ : DB).physician_locations 1 1 = true ∧
    (((createAppointment ⟨[⟨1, "Main"⟩], [], [⟨1, 1⟩], [],
          [⟨3, 9, 1, 1, 8, 540, 570, "scheduled"⟩], []⟩ 7 1 1 8 540 570 99).1 =
        .slotConflict) ↔
      ∃ a ∈ (⟨[⟨1, "Main"⟩], [], [⟨1, 1⟩], [],
          [⟨3, 9, 1, 1, 8, 540, 570, "scheduled"⟩], []⟩ : DB).appointments,
        a.physician_id = 1 ∧ a.location_id = 1 ∧
        a.appointment_date = 8 ∧ a.start_time = 540 ∧
        a.status ≠ "cancelled" ∧ a.status ≠ "no_show") ∧
    ((createAppointment ⟨[⟨1, "Main"⟩], [], [⟨1, 1⟩], [],
          [⟨3, 9, 1, 1, 8, 540, 570, "scheduled"⟩], []⟩ 7 1 1 8 540 570 99).1 =
        .slotConflict →
      (createAppointment ⟨[⟨1, "Main"⟩], [], [⟨1, 1⟩], [],
          [⟨3, 9, 1, 1, 8, 540, 570, "scheduled"⟩], []⟩ 7 1 1 8 540 570 99).2 =
        ⟨[⟨1, "Main"⟩], [], [⟨1, 1⟩], [], [⟨3, 9, 1, 1, 8, 540, 570, "scheduled"⟩], []⟩) :=
  ⟨by decide,
    booking_conflict_guard_iff.1
      ⟨[⟨1, "Main"⟩], [], [⟨1, 1⟩], [], [⟨3, 9, 1, 1, 8, 540, 570, "scheduled"⟩], []⟩
      7 1 1 8 540 570 99 (by decide)⟩

/-- The element shape the alternatives route would push (4.multi_location_
backend_api.js lines 907-915), kept as the response element type of
findAlternatives below. -/
structure AltOption where
  physician_id : Nat
  physician_name : String
  specialty : String
  location_id : Nat
  location_name : String
  date : Nat
  available_slots : List Slot
deriving Repr, DecidableEq

/-- GET /api/appointments/:id/alternatives (lines 845-929).  The handler's
first query (lines 851-856) is SELECT a.*, p.specialty FROM appointments a
JOIN physicians ph ON a.physician_id = ph.id: it selects from the alias p,
which is defined nowhere in that statement, so the database rejects the query
on every request, the catch at line 925 fires and the route always responds
500 with no alternatives.  The candidate enumeration and the day/physician
loops at lines 867-922 (including their cap of 10 and their slot generation)
are unreachable on every input; none models the invariable error response. -/
def findAlternatives (db : DB) (apptId : Nat) (preferredLocationId : Option Nat)
    (dateRange today : Nat) : Option (List AltOption) :=
  none

/-- C9: the alternatives route cannot exhibit the claimed behavior on any
input: its reference query names an undefined SQL alias, so for every
database and every request the route errors out and returns no alternatives
list at all, instead of the claimed list of at most 10 options consistent
with GetAvailability. -/
theorem alternatives_route_always_errors (db : DB) (apptId : Nat)
    (preferredLocationId : Option Nat) (dateRange today : Nat) :
    findAlternatives db apptId preferredLocationId dateRange today = none :=
  rfl

/-- The columns of physician_schedules that router.get('/:id/available-slots')
destructures (src/unnamed/part_001 line 873). -/
structure SimpleSchedule where
  start_time : Nat
  end_time : Nat
  lunch_start : Option Nat
  lunch_end : Option Nat
deriving Repr, DecidableEq

/-- The object pushed by that route (src/unnamed/part_001 lines 915-918):
start and end only; end is rendered stop (Lean keyword). -/
structure SimpleSlot where
  start : Nat
  stop : Nat
deriving Repr, DecidableEq

/-- The lunch test of the part_001 slot loop (src/unnamed/part_001 line 902):
jump the cursor to lunch_end when lunch_start <= currentTime < lunch_end.
When the schedule's lunch columns are NULL the route builds invalid moments
and every comparison against them is false, so the branch never fires: the
none cases model that. -/
def lunchJump (lunchStart lunchEnd : Option Nat) (currentTime : Nat) : Option Nat :=
  match lunchStart, lunchEnd with
  | some ls, some le => if ls ≤ currentTime ∧ currentTime < le then some le else none
  | _, _ => none

/-- The slot loop of router.get('/:id/available-slots') (src/unnamed/part_001
lines 892-922), fuelled like generateTimeSlotsGo: every iteration either
returns or strictly advances the cursor (by the duration, or to lunch_end
which exceeds a cursor inside the lunch window), so for duration >= 1 a fuel
of endTime + 1 is never exhausted; the JS loop does not terminate for
duration = 0, which no caller supplies (the query parameter defaults to 30).
Unlike generateTimeSlotsGo there is no test that the candidate's end stays
within endTime: the loop only checks currentTime.isBefore(endMoment).  The
booking test at line 911 is the full half-open overlap rule. -/
def availableSlotsGo (endTime : Nat) (lunchStart lunchEnd : Option Nat)
    (booked : List Appt) (duration : Nat) : Nat → Nat → List SimpleSlot
  | 0, _ => []
  | fuel + 1, currentTime =>
    if currentTime < endTime then
      match lunchJump lunchStart lunchEnd currentTime with
      | some le => availableSlotsGo endTime lunchStart lunchEnd booked duration fuel le
      | none =>
        if booked.any (fun apt =>
            decide (currentTime < apt.end_time ∧ apt.start_time < currentTime + duration)) then
          availableSlotsGo endTime lunchStart lunchEnd booked duration
            fuel (currentTime + duration)
        else
          { start := currentTime, stop := currentTime + duration } ::
            availableSlotsGo endTime lunchStart lunchEnd booked duration
              fuel (currentTime + duration)
    else []

/-- The slot generation of router.get('/:id/available-slots') for a schedule
row, a booked list (the route fetches the physician's appointments for the
date with status != 'cancelled') and the requested duration. -/
def availableSlots (schedule : SimpleSchedule) (booked : List Appt)
    (duration : Nat) : List SimpleSlot :=
  availableSlotsGo schedule.end_time schedule.lunch_start schedule.lunch_end
    booked duration (schedule.end_time + 1) schedule.start_time

/-- C7 counterexample: the claim also names the part_001 available-slots
route, whose loop has no check that a candidate's end stays within the
working-period end.  With working hours 09:00-09:45 (540-585), 30-minute
slots (length 45, not a multiple of 30) and no bookings it emits 09:00-09:30
and then 09:30-10:00, whose end 600 exceeds the working-period end 585: the
trailing remainder does produce a slot there, and it extends past the end. -/
theorem trailing_slot_past_end_cex :
    ((585 - 540 : Nat) % 30 ≠ 0) ∧
    availableSlots ⟨540, 585, none, none⟩ [] 30 = [⟨540, 570⟩, ⟨570, 600⟩] ∧
    585 < 600 := by
  refine ⟨by decide, by decide, by decide⟩

end BluHealth
